import Mathlib

/-!
Shallow embedding of the configuration / decode / weight-import core of the
`tensorflow-yolov4` wrapper (`py_src/yolov4/tf/__init__.py` and
`py_src/yolov4/tflite/__init__.py`), together with spec-modelled definitions
for the overlap metric and the weight-file importer whose implementation
modules are external to the wrapper sources.
-/

namespace Yolov4

/-- Numpy dtype tags that occur in the wrapper code. -/
inductive DType where
  | int64
  | float64
  | float32
deriving DecidableEq, Repr

/-- A numpy `ndarray` holding rational values: a dtype tag, a shape, and the
row-major flattened data. -/
structure NDArray where
  dtype : DType
  shape : List Nat
  data : List ℚ
deriving DecidableEq, Repr

/-- Numpy's dtype inference for `np.array` on a (nested) list of numbers:
all-integer input yields `int64`, otherwise `float64`. -/
def inferDType (xs : List ℚ) : DType :=
  if xs.all (fun q => q.den = 1) then DType.int64 else DType.float64

/-- A Python value handed to one of the `list/tuple/np.ndarray` property
setters: a flat list, a flat tuple, a nested (scales x 3 x 2) list, an
ndarray, or a value of any other type. -/
inductive PyVal where
  | pylist (xs : List ℚ)
  | pytuple (xs : List ℚ)
  | nested (xss : List (List (List ℚ)))
  | arr (a : NDArray)
  | otherVal
deriving DecidableEq, Repr

/-- Conversion `np.array` on the `list`/`tuple` branches of the setters: flat input
gives a 1-D array, a regular nested list gives a 3-D array (only the
flattened data matters to the later `reshape`); an existing ndarray is kept
as-is; any other value has no array conversion. -/
def npOfVal : PyVal → Option NDArray
  | PyVal.pylist xs => some ⟨inferDType xs, [xs.length], xs⟩
  | PyVal.pytuple xs => some ⟨inferDType xs, [xs.length], xs⟩
  | PyVal.nested xss =>
      let flat := (xss.map List.flatten).flatten
      some ⟨inferDType flat,
        [xss.length, (xss.headD []).length, ((xss.headD []).headD []).length],
        flat⟩
  | PyVal.arr a => some a
  | PyVal.otherVal => none

/-- Method `ndarray.astype`: changes only the dtype tag. -/
def NDArray.astype (a : NDArray) (dt : DType) : NDArray :=
  ⟨dt, a.shape, a.data⟩

/-- Method `ndarray.reshape`: succeeds exactly when the element count matches the
product of the requested shape, else raises a `ValueError`. -/
def NDArray.reshape (a : NDArray) (sh : List Nat) : Except String NDArray :=
  if a.data.length = sh.prod then
    Except.ok ⟨a.dtype, sh, a.data⟩
  else
    Except.error "ValueError: cannot reshape array"

/-- The target anchor shape chosen by the anchors setter:
`(2, 3, 2)` for the tiny variant, `(3, 3, 2)` for the full variant. -/
def anchorShape (tiny : Bool) : List Nat :=
  if tiny then [2, 3, 2] else [3, 3, 2]

/-- Setter `YOLOv4.anchors` (identical in the tf and tflite wrappers):
a `list`/`tuple` is converted with `np.array`, an `ndarray` is stored as-is,
and any other value leaves `_anchors` untouched (no `else` branch); the
result is then cast to `float32` and reshaped to `(2,3,2)` (tiny) or
`(3,3,2)` (full).  `old = none` models an object on which `_anchors` was
never assigned (an `AttributeError` in Python). -/
def set_anchors (tiny : Bool) (old : Option NDArray) (v : PyVal) :
    Except String NDArray :=
  match npOfVal v with
  | some a => (a.astype DType.float32).reshape (anchorShape tiny)
  | none =>
      match old with
      | some a => (a.astype DType.float32).reshape (anchorShape tiny)
      | none => Except.error "AttributeError: _anchors"

/-- Setter `YOLOv4.strides`: a `list`/`tuple` is converted with `np.array`,
an `ndarray` is stored as-is, and any other value leaves the stored value
untouched; no branch raises. -/
def set_strides (old : NDArray) (v : PyVal) : Except String NDArray :=
  Except.ok ((npOfVal v).getD old)

/-- Setter `YOLOv4.xyscales`: same branch structure as the strides setter. -/
def set_xyscales (old : NDArray) (v : PyVal) : Except String NDArray :=
  Except.ok ((npOfVal v).getD old)

/-- Setter `YOLOv4.input_size`: stores the value when `size % 32 == 0`
(Python `%`, i.e. euclidean remainder), else raises a `ValueError`. -/
def set_input_size (size : Int) : Except String Int :=
  if size % 32 = 0 then
    Except.ok size
  else
    Except.error "ValueError: YOLOv4: Set input_size to multiples of 32"

/-- A value handed to the `classes` setter: a path string, a dict mapping
class ids to names, or a value of any other type. -/
inductive ClassesVal where
  | strv (p : String)
  | dictv (d : List (Nat × String))
  | otherv
deriving DecidableEq, Repr

/-- Setter `YOLOv4.classes`: a string is resolved through
`media.read_classes_names` (supplied here as the function `readNames`,
since the media module is outside the wrapper sources), a dict is stored
as-is, anything else raises a `TypeError` before any assignment. -/
def set_classes (readNames : String → List (Nat × String)) (v : ClassesVal) :
    Except String (List (Nat × String)) :=
  match v with
  | ClassesVal.strv p => Except.ok (readNames p)
  | ClassesVal.dictv d => Except.ok d
  | ClassesVal.otherv => Except.error "TypeError: YOLOv4: Set classes path or dictionary"

/-- The state a property setter acts on, as observed by the caller: on a
raised exception the stored value is the previous one. -/
def applySet {σ : Type} (old : σ) : Except String σ → σ
  | Except.ok s => s
  | Except.error _ => old

/-- The configuration attributes of a `YOLOv4` object that the claims are
about (`self.model` is omitted; it is an external Keras object). -/
structure Config where
  tiny : Bool
  tpu : Bool
  anchors : NDArray
  batch_size : Int
  subdivision : Int
  classes : Option (List (Nat × String))
  has_weights : Bool
  input_size : Int
  strides : NDArray
  xyscales : NDArray
deriving DecidableEq, Repr

/-- The default anchor nested list from `__init__`. -/
def defaultAnchorsList (tiny : Bool) : List (List (List ℚ)) :=
  if tiny then
    [[[23, 27], [37, 58], [81, 82]],
     [[81, 82], [135, 169], [344, 319]]]
  else
    [[[12, 16], [19, 36], [40, 28]],
     [[36, 75], [76, 55], [72, 146]],
     [[142, 110], [192, 243], [459, 401]]]

/-- The default strides list from `__init__`. -/
def defaultStridesList (tiny : Bool) : List ℚ :=
  if tiny then [16, 32] else [8, 16, 32]

/-- The default xyscales list from `__init__`. -/
def defaultXyscalesList (tiny : Bool) : List ℚ :=
  if tiny then
    [mkRat 105 100, mkRat 105 100]
  else
    [mkRat 12 10, mkRat 11 10, mkRat 105 100]

/-- Constructor `YOLOv4.__init__(tiny, tpu)`: assigns the default anchors, batch size 32,
subdivision 16, no classes, `_has_weights = False`, input size 608, and the
default strides and xyscales, going through the property setters exactly as
the constructor does. -/
def initConfig (tiny tpu : Bool) : Except String Config := do
  let anchors ← set_anchors tiny none (PyVal.nested (defaultAnchorsList tiny))
  let input_size ← set_input_size 608
  let strides := (npOfVal (PyVal.pylist (defaultStridesList tiny))).getD anchors
  let xyscales := (npOfVal (PyVal.pylist (defaultXyscalesList tiny))).getD anchors
  Except.ok
    { tiny := tiny
      tpu := tpu
      anchors := anchors
      batch_size := 32
      subdivision := 16
      classes := none
      has_weights := false
      input_size := input_size
      strides := strides
      xyscales := xyscales }

/-- Python integer floor division `//`: floors toward negative infinity and
raises `ZeroDivisionError` on a zero divisor. -/
def pyFloorDiv (a b : Int) : Except String Int :=
  if b = 0 then Except.error "ZeroDivisionError" else Except.ok (Int.fdiv a b)

/-- The arguments `YOLOv4.compile` hands to the `train.YOLOv4Loss`
constructor: `batch_size=self.batch_size // self.subdivision` and the chosen
IoU-loss variant. -/
structure LossArgs where
  batch_size : Int
  iou_type : String
deriving DecidableEq, Repr

/-- Method `YOLOv4.compile`: builds the loss-aggregator arguments from the current
configuration. -/
def compileLossArgs (cfg : Config) (loss_iou_type : String) :
    Except String LossArgs := do
  let b ← pyFloorDiv cfg.batch_size cfg.subdivision
  Except.ok ⟨b, loss_iou_type⟩

/-- The arguments `YOLOv4.load_dataset` hands to the `dataset.Dataset`
constructor. -/
structure DatasetArgs where
  anchors : NDArray
  batch_size : Int
  dataset_path : String
  dataset_type : String
  data_augmentation : Bool
  input_size : Int
  num_classes : Nat
  strides : NDArray
  xyscales : NDArray
deriving DecidableEq, Repr

/-- Method `YOLOv4.load_dataset`: builds the dataset-loader arguments from the
current configuration; `len(self.classes)` raises a `TypeError` when no
classes were configured (`self._classes is None`). -/
def loadDatasetArgs (cfg : Config) (dataset_path dataset_type : String)
    (training : Bool) : Except String DatasetArgs := do
  let b ← pyFloorDiv cfg.batch_size cfg.subdivision
  match cfg.classes with
  | none => Except.error "TypeError: object of type NoneType has no len"
  | some cs =>
      Except.ok
        { anchors := cfg.anchors
          batch_size := b
          dataset_path := dataset_path
          dataset_type := dataset_type
          data_augmentation := training
          input_size := cfg.input_size
          num_classes := cs.length
          strides := cfg.strides
          xyscales := cfg.xyscales }

/-!  The `predict` pipeline (tf and tflite wrappers share its structure):
each per-scale raw output tensor of shape `(1, g, g, 3, feat)` is reshaped
to `(1, g*g*3, feat)`, the scales are concatenated along axis 1, and the
batch-0 slice is decoded and remapped to the original frame. -/

/-- One scale's raw output tensor for a batch of one image: `g` grid rows,
each with `g` grid columns, each with 3 anchor slots, each holding one raw
candidate row of type `α`. -/
structure ScaleOut (α : Type) where
  cells : List (List (List α))

/-- Expression `candidate.shape[1]`: the grid size read off the tensor. -/
def ScaleOut.gridSize {α : Type} (o : ScaleOut α) : Nat :=
  o.cells.length

/-- Reshape `tf.reshape(candidate, (1, grid_size * grid_size * 3, -1))` on the
batch-0 slice: row-major flattening of the `(g, g, 3)` leading axes. -/
def ScaleOut.reshapeCand {α : Type} (o : ScaleOut α) : List α :=
  (o.cells.map List.flatten).flatten

/-- A scale output is well-formed when its tensor really is
`g x g x 3`-shaped. -/
def ScaleOut.WF {α : Type} (o : ScaleOut α) : Prop :=
  ∀ row ∈ o.cells, row.length = o.cells.length ∧ ∀ c ∈ row, c.length = 3

/-- The loop in `predict` that builds `_candidates` by appending each
reshaped scale tensor and then concatenates them along axis 1. -/
def predictConcat {α : Type} (outs : List (ScaleOut α)) : List α :=
  (outs.foldl (fun acc o => acc ++ [o.reshapeCand]) []).flatten

/-- Method `YOLOv4.predict` after the network call: concatenate the reshaped
per-scale candidates, decode the batch-0 candidate list to predicted boxes,
then remap them to the original frame's coordinate system.  The decode and
letterbox-undo steps live in the external `utility.predict` module and are
passed in as functions. -/
def predictBoxes {α β γ : Type} (decode : List α → List β)
    (fitToOriginal : List β → γ → List β) (outs : List (ScaleOut α))
    (frameShape : γ) : List β :=
  fitToOriginal (decode (predictConcat outs)) frameShape

/-!  The `_has_weights` / `make_model` / `load_weights` state machine. -/

/-- A weights format string handed to `load_weights`. -/
inductive WFormat where
  | yolo
  | tfFmt
  | otherFmt
deriving DecidableEq, Repr

/-- The side effects of `make_model` and `load_weights`, in program order. -/
inductive Effect where
  | setHasWeights (b : Bool)
  | clearSession
  | constructModel
  | loadDarknetWeights
  | loadKerasWeights
deriving DecidableEq, Repr

/-- The ordered effects of `make_model`: reset `_has_weights`, clear the
global backend session, then construct and trace a fresh model. -/
def makeModelEffects : List Effect :=
  [Effect.setHasWeights false, Effect.clearSession, Effect.constructModel]

/-- The ordered effects of a `load_weights` call that does not raise:
the format-selected load, then `_has_weights = True`. -/
def loadWeightsEffects (fmt : WFormat) : List Effect :=
  (match fmt with
   | WFormat.yolo => [Effect.loadDarknetWeights]
   | WFormat.tfFmt => [Effect.loadKerasWeights]
   | WFormat.otherFmt => []) ++ [Effect.setHasWeights true]

/-- The wrapper-object state the flag invariant is about. -/
structure MState where
  has_weights : Bool
  model_built : Bool
deriving DecidableEq, Repr

/-- The state right after `__init__`. -/
def initMState : MState :=
  ⟨false, false⟩

/-- One method call on the wrapper object: `make_model`, or `load_weights`
with a format and a flag telling whether the underlying load raised. -/
inductive MOp where
  | mkModel
  | loadW (fmt : WFormat) (ok : Bool)
deriving DecidableEq, Repr

/-- State transition of one call: `make_model` resets `_has_weights` and
installs a fresh model; a `load_weights` call sets `_has_weights = True`
unless the underlying load raised first. -/
def stepOp (s : MState) : MOp → MState
  | MOp.mkModel => { s with has_weights := false, model_built := true }
  | MOp.loadW _ ok => if ok then { s with has_weights := true } else s

/-- Run a call sequence from the freshly constructed state. -/
def runOps (ops : List MOp) : MState :=
  ops.foldl stepOp initMState

/-- Specification-side reading of the flag: scan the call history backwards;
the flag is set exactly when a successful `load_weights` is met before any
`make_model`. -/
def flagSpecRev : List MOp → Bool
  | [] => false
  | MOp.mkModel :: _ => false
  | MOp.loadW _ true :: _ => true
  | MOp.loadW _ false :: rest => flagSpecRev rest

/-!  Weight-file importer.  `YOLOv4.load_weights(path, weights_type="yolo")`
delegates to `weights.load_weights`, whose module is outside the wrapper
sources; it is modelled here from the spec. -/

/-- One convolutional layer of the topology manifest: whether it carries
batch normalization, and its output channels, input channels and kernel
dimensions. -/
structure ConvLayer where
  hasBN : Bool
  outC : Nat
  inC : Nat
  kh : Nat
  kw : Nat
deriving DecidableEq, Repr

/-- Modelled from the spec: the number of 32-bit floats one layer's block
occupies — four per-channel batch-norm vectors (bias, scale, mean, variance)
or a plain bias vector, followed by the convolution kernel. -/
def layerFloatCount (l : ConvLayer) : Nat :=
  (if l.hasBN then 4 * l.outC else l.outC) + l.outC * l.inC * l.kh * l.kw

/-- Total expected float count of a topology manifest. -/
def totalFloatCount (layers : List ConvLayer) : Nat :=
  (layers.map layerFloatCount).sum

/-- A darknet-style weight file: the fixed header (3 x int32 version,
int64 images-seen count) followed by the raw 32-bit float words,
represented by their bit patterns. -/
structure WFile where
  version : Int × Int × Int
  images_seen : Int
  floats : List Nat
deriving DecidableEq, Repr

/-- Modelled from the spec: one layer's parameter block as read from the
file — the four batch-norm vectors or the plain bias, then the kernel. -/
structure LayerBlock where
  bnBias : List Nat
  bnScale : List Nat
  bnMean : List Nat
  bnVar : List Nat
  bias : List Nat
  kernel : List Nat
deriving DecidableEq, Repr

/-- Modelled from the spec: read `n` floats from the stream, failing with a
`FormatError` when the file holds fewer floats than expected. -/
def readVec (n : Nat) (xs : List Nat) : Except String (List Nat × List Nat) :=
  if n ≤ xs.length then
    Except.ok (xs.take n, xs.drop n)
  else
    Except.error "FormatError: file shorter than expected float count"

/-- Modelled from the spec (`weights.load_weights` is outside the wrapper
sources): read one layer's block — with batch normalization the bias, scale,
mean and variance vectors sized to the output channel count, in that order,
then the kernel weights; without it a plain bias vector then the kernel. -/
def readLayer (l : ConvLayer) (xs : List Nat) :
    Except String (LayerBlock × List Nat) :=
  if l.hasBN then do
    let (bnBias, xs) ← readVec l.outC xs
    let (bnScale, xs) ← readVec l.outC xs
    let (bnMean, xs) ← readVec l.outC xs
    let (bnVar, xs) ← readVec l.outC xs
    let (kernel, xs) ← readVec (l.outC * l.inC * l.kh * l.kw) xs
    Except.ok (⟨bnBias, bnScale, bnMean, bnVar, [], kernel⟩, xs)
  else do
    let (bias, xs) ← readVec l.outC xs
    let (kernel, xs) ← readVec (l.outC * l.inC * l.kh * l.kw) xs
    Except.ok (⟨[], [], [], [], bias, kernel⟩, xs)

/-- Modelled from the spec: read every layer's block in strict construction
order, threading the remaining float stream. -/
def readLayers : List ConvLayer → List Nat →
    Except String (List LayerBlock × List Nat)
  | [], xs => Except.ok ([], xs)
  | l :: ls, xs => do
      let (b, xs) ← readLayer l xs
      let (bs, xs) ← readLayers ls xs
      Except.ok (b :: bs, xs)

/-- Modelled from the spec: the whole import — parse all layer blocks and
fail with a `FormatError` when unconsumed floats remain after the last
layer's block. -/
def importWeights (layers : List ConvLayer) (f : WFile) :
    Except String (List LayerBlock) := do
  let (blocks, rest) ← readLayers layers f.floats
  if rest.isEmpty then
    Except.ok blocks
  else
    Except.error "FormatError: unconsumed bytes remain after last layer"

/-- The model state `load_weights` installs into. -/
structure WeightState where
  installed : Option (List LayerBlock)
deriving DecidableEq, Repr

/-- Method `load_weights` with `weights_type="yolo"` as observed by the caller:
on success the parsed blocks are installed, on a `FormatError` the exception
propagates and the previous model state is left as it was. -/
def loadWeightsYolo (layers : List ConvLayer) (st : WeightState) (f : WFile) :
    WeightState × Option String :=
  match importWeights layers f with
  | Except.ok blocks => (⟨some blocks⟩, none)
  | Except.error e => (st, some e)

/-!  Overlap metric.  The IoU implementation lives in the external
`utility.train` / `utility.predict` modules; it is modelled here from the
spec over exact rationals. -/

/-- An axis-aligned box in center-size form. -/
structure BBox where
  x : ℚ
  y : ℚ
  w : ℚ
  h : ℚ
deriving DecidableEq, Repr

/-- Left edge of a box. -/
def BBox.leftE (b : BBox) : ℚ := b.x - b.w / 2

/-- Right edge of a box. -/
def BBox.rightE (b : BBox) : ℚ := b.x + b.w / 2

/-- Bottom edge of a box. -/
def BBox.botE (b : BBox) : ℚ := b.y - b.h / 2

/-- Top edge of a box. -/
def BBox.topE (b : BBox) : ℚ := b.y + b.h / 2

/-- Area of a box. -/
def BBox.area (b : BBox) : ℚ := b.w * b.h

/-- Overlap length of two intervals, clamped at zero. -/
def interLen (l1 r1 l2 r2 : ℚ) : ℚ :=
  max 0 (min r1 r2 - max l1 l2)

/-- Modelled from the spec: intersection area of two axis-aligned boxes. -/
def interArea (a b : BBox) : ℚ :=
  interLen a.leftE a.rightE b.leftE b.rightE *
    interLen a.botE a.topE b.botE b.topE

/-- Modelled from the spec: union area of two boxes. -/
def unionArea (a b : BBox) : ℚ :=
  a.area + b.area - interArea a b

/-- Modelled from the spec (`utility` modules are outside the wrapper
sources): IoU with the union-area floor at a small epsilon that prevents
division by zero on degenerate boxes. -/
def iou (eps : ℚ) (a b : BBox) : ℚ :=
  interArea a b / max (unionArea a b) eps

/-!  Helper lemmas. -/

/-- Characterization of a successful reshape. -/
theorem reshape_ok {a b : NDArray} {sh : List Nat}
    (h : a.reshape sh = Except.ok b) :
    b.shape = sh ∧ b.dtype = a.dtype ∧ b.data = a.data ∧
      a.data.length = sh.prod := by
  unfold NDArray.reshape at h
  split at h
  · cases h
    exact ⟨rfl, rfl, rfl, by assumption⟩
  · cases h

/-- Success of the anchors setter is exactly a successful reshape of the
selected base array. -/
theorem set_anchors_ok {tiny : Bool} {old : Option NDArray} {v : PyVal}
    {a : NDArray} (h : set_anchors tiny old v = Except.ok a) :
    ∃ base : NDArray,
      (base.astype DType.float32).reshape (anchorShape tiny) = Except.ok a := by
  unfold set_anchors at h
  cases hv : npOfVal v with
  | some c =>
      rw [hv] at h
      exact ⟨c, h⟩
  | none =>
      rw [hv] at h
      cases old with
      | some c => exact ⟨c, h⟩
      | none => cases h

/-- The product of the anchor target shape. -/
theorem anchorShape_prod (tiny : Bool) :
    (anchorShape tiny).prod = (if tiny then 2 else 3) * 3 * 2 := by
  cases tiny <;> rfl

/-- Bind on a successful `Except` computation reduces to the
continuation. -/
theorem except_bind_ok {ε α β : Type} (a : α) (f : α → Except ε β) :
    (Except.ok a >>= f : Except ε β) = f a :=
  rfl

/-- Bind on a failed `Except` computation propagates the error. -/
theorem except_bind_err {ε α β : Type} (e : ε) (f : α → Except ε β) :
    (Except.error e >>= f : Except ε β) = Except.error e :=
  rfl

/-- Folding list-append of singletons is a map. -/
theorem foldl_append_singleton {α β : Type} (f : α → β) (l : List α)
    (acc : List β) :
    l.foldl (fun a x => a ++ [f x]) acc = acc ++ l.map f := by
  induction l generalizing acc with
  | nil => simp
  | cons x xs ih => simp [ih]

/-- The candidate-concatenation loop of `predict` equals the flattening of
the reshaped per-scale candidate lists, in scale order. -/
theorem predictConcat_eq {α : Type} (outs : List (ScaleOut α)) :
    predictConcat outs = (outs.map ScaleOut.reshapeCand).flatten := by
  unfold predictConcat
  rw [foldl_append_singleton]
  simp

/-- A well-formed scale output reshapes to exactly
`grid_size * grid_size * 3` candidate rows. -/
theorem reshapeCand_length {α : Type} (o : ScaleOut α) (h : o.WF) :
    o.reshapeCand.length = o.gridSize * o.gridSize * 3 := by
  unfold ScaleOut.reshapeCand ScaleOut.gridSize
  rw [List.length_flatten]
  have hmap : (o.cells.map List.flatten).map List.length =
      o.cells.map (fun _ => 3 * o.cells.length) := by
    rw [List.map_map]
    refine List.map_congr_left ?_
    intro row hrow
    obtain ⟨hlen, hc⟩ := h row hrow
    simp only [Function.comp]
    rw [List.length_flatten]
    have hrow3 : row.map List.length = row.map (fun _ => 3) :=
      List.map_congr_left (fun c hcm => hc c hcm)
    rw [hrow3, List.map_const', List.sum_replicate, smul_eq_mul, hlen]
    ring
  rw [hmap, List.map_const', List.sum_replicate, smul_eq_mul]
  ring

/-- Running one more call is one step on the previous run. -/
theorem runOps_append (ops : List MOp) (op : MOp) :
    runOps (ops ++ [op]) = stepOp (runOps ops) op := by
  unfold runOps
  rw [List.foldl_append]
  rfl

/-- The `_has_weights` flag after any call sequence matches the
backwards-scan reading: set exactly when a successful `load_weights` comes
after the last `make_model`. -/
theorem runOps_flag (ops : List MOp) :
    (runOps ops).has_weights = flagSpecRev ops.reverse := by
  induction ops using List.reverseRecOn with
  | nil => rfl
  | append_singleton l op ih =>
      rw [runOps_append, List.reverse_append]
      cases op with
      | mkModel => simp [stepOp, flagSpecRev]
      | loadW fmt ok =>
          cases ok
          · simpa [stepOp, flagSpecRev] using ih
          · simp [stepOp, flagSpecRev]

/-- Characterization of a successful raw-vector read. -/
theorem readVec_ok {n : Nat} {xs : List Nat} (h : n ≤ xs.length) :
    readVec n xs = Except.ok (xs.take n, xs.drop n) := by
  unfold readVec
  rw [if_pos h]

/-- A raw-vector read past the end of the stream fails. -/
theorem readVec_err {n : Nat} {xs : List Nat} (h : xs.length < n) :
    readVec n xs =
      Except.error "FormatError: file shorter than expected float count" := by
  unfold readVec
  rw [if_neg (by omega)]

/-- The layer block a successful read produces, written out with takes and
drops of the stream. -/
def blockOf (l : ConvLayer) (xs : List Nat) : LayerBlock :=
  if l.hasBN then
    ⟨xs.take l.outC, (xs.drop l.outC).take l.outC,
      ((xs.drop l.outC).drop l.outC).take l.outC,
      (((xs.drop l.outC).drop l.outC).drop l.outC).take l.outC, [],
      ((((xs.drop l.outC).drop l.outC).drop l.outC).drop l.outC).take
        (l.outC * l.inC * l.kh * l.kw)⟩
  else
    ⟨[], [], [], [], xs.take l.outC,
      (xs.drop l.outC).take (l.outC * l.inC * l.kh * l.kw)⟩

/-- A layer block read succeeds on a sufficiently long stream and consumes
exactly the layer's float count. -/
theorem readLayer_ok (l : ConvLayer) (xs : List Nat)
    (h : layerFloatCount l ≤ xs.length) :
    readLayer l xs = Except.ok (blockOf l xs, xs.drop (layerFloatCount l)) := by
  unfold layerFloatCount at *
  cases hbn : l.hasBN with
  | true =>
      rw [hbn] at h
      simp only [if_true] at h
      unfold readLayer blockOf
      rw [hbn]
      simp only [if_true]
      rw [readVec_ok (by omega)]
      simp only [except_bind_ok]
      rw [readVec_ok (by simp only [List.length_drop]; omega)]
      simp only [except_bind_ok]
      rw [readVec_ok (by simp only [List.length_drop]; omega)]
      simp only [except_bind_ok]
      rw [readVec_ok (by simp only [List.length_drop]; omega)]
      simp only [except_bind_ok]
      rw [readVec_ok (by simp only [List.length_drop]; omega)]
      simp only [except_bind_ok, List.drop_drop]
      congr 3
      omega
  | false =>
      rw [hbn] at h
      simp only [Bool.false_eq_true, if_false] at h
      unfold readLayer blockOf
      rw [hbn]
      simp only [Bool.false_eq_true, if_false]
      rw [readVec_ok (by omega)]
      simp only [except_bind_ok]
      rw [readVec_ok (by simp only [List.length_drop]; omega)]
      simp only [except_bind_ok, List.drop_drop]

/-- A layer block read on a too-short stream fails with the short-read
`FormatError`. -/
theorem readLayer_err (l : ConvLayer) (xs : List Nat)
    (h : xs.length < layerFloatCount l) :
    readLayer l xs =
      Except.error "FormatError: file shorter than expected float count" := by
  unfold layerFloatCount at h
  cases hbn : l.hasBN with
  | true =>
      rw [hbn] at h
      simp only [if_true] at h
      unfold readLayer
      rw [hbn]
      simp only [if_true]
      by_cases h1 : l.outC ≤ xs.length
      case neg => rw [readVec_err (by omega)]; rfl
      rw [readVec_ok h1]
      simp only [except_bind_ok]
      by_cases h2 : l.outC ≤ (xs.drop l.outC).length
      case neg => rw [readVec_err (by omega)]; rfl
      rw [readVec_ok h2]
      simp only [except_bind_ok]
      by_cases h3 : l.outC ≤ ((xs.drop l.outC).drop l.outC).length
      case neg => rw [readVec_err (by omega)]; rfl
      rw [readVec_ok h3]
      simp only [except_bind_ok]
      by_cases h4 :
          l.outC ≤ (((xs.drop l.outC).drop l.outC).drop l.outC).length
      case neg => rw [readVec_err (by omega)]; rfl
      rw [readVec_ok h4]
      simp only [except_bind_ok]
      rw [readVec_err (by simp only [List.length_drop] at *; omega)]
      rfl
  | false =>
      rw [hbn] at h
      simp only [Bool.false_eq_true, if_false] at h
      unfold readLayer
      rw [hbn]
      simp only [Bool.false_eq_true, if_false]
      by_cases h1 : l.outC ≤ xs.length
      case neg => rw [readVec_err (by omega)]; rfl
      rw [readVec_ok h1]
      simp only [except_bind_ok]
      rw [readVec_err (by simp only [List.length_drop] at *; omega)]
      rfl

/-- Reading all layer blocks succeeds on a sufficiently long stream and
consumes exactly the total expected float count. -/
theorem readLayers_ok (layers : List ConvLayer) (xs : List Nat)
    (h : totalFloatCount layers ≤ xs.length) :
    ∃ bs, readLayers layers xs =
      Except.ok (bs, xs.drop (totalFloatCount layers)) := by
  induction layers generalizing xs with
  | nil => exact ⟨[], by simp [readLayers, totalFloatCount]⟩
  | cons l ls ih =>
      have htot : totalFloatCount (l :: ls) =
          layerFloatCount l + totalFloatCount ls := by
        simp [totalFloatCount]
      have hcount : layerFloatCount l ≤ xs.length := by omega
      have hrest :
          totalFloatCount ls ≤ (xs.drop (layerFloatCount l)).length := by
        simp only [List.length_drop]
        omega
      obtain ⟨bs, hbs⟩ := ih _ hrest
      refine ⟨blockOf l xs :: bs, ?_⟩
      unfold readLayers
      rw [readLayer_ok l xs hcount]
      simp only [except_bind_ok]
      rw [hbs]
      simp only [except_bind_ok, List.drop_drop, htot]

/-- Reading all layer blocks from a too-short stream fails with the
short-read `FormatError`. -/
theorem readLayers_err (layers : List ConvLayer) (xs : List Nat)
    (h : xs.length < totalFloatCount layers) :
    readLayers layers xs =
      Except.error "FormatError: file shorter than expected float count" := by
  induction layers generalizing xs with
  | nil => simp [totalFloatCount] at h
  | cons l ls ih =>
      have htot : totalFloatCount (l :: ls) =
          layerFloatCount l + totalFloatCount ls := by
        simp [totalFloatCount]
      by_cases h1 : layerFloatCount l ≤ xs.length
      · have hrest :
            (xs.drop (layerFloatCount l)).length < totalFloatCount ls := by
          simp only [List.length_drop]
          omega
        unfold readLayers
        rw [readLayer_ok l xs h1]
        simp only [except_bind_ok]
        rw [ih _ hrest]
        rfl
      · unfold readLayers
        rw [readLayer_err l xs (by omega)]
        rfl

/-- The weight import succeeds exactly when the file holds exactly the
total expected float count. -/
theorem importWeights_ok_iff (layers : List ConvLayer) (f : WFile) :
    (∃ bs, importWeights layers f = Except.ok bs) ↔
      f.floats.length = totalFloatCount layers := by
  constructor
  · rintro ⟨bs, hbs⟩
    by_cases hlt : f.floats.length < totalFloatCount layers
    · rw [importWeights, readLayers_err layers f.floats hlt] at hbs
      cases hbs
    · push_neg at hlt
      obtain ⟨bs', hbs'⟩ := readLayers_ok layers f.floats hlt
      rw [importWeights, hbs', except_bind_ok] at hbs
      by_cases hemp :
          (f.floats.drop (totalFloatCount layers)).isEmpty = true
      · rw [List.isEmpty_iff, List.drop_eq_nil_iff] at hemp
        omega
      · simp only [hemp, if_false, Bool.false_eq_true] at hbs
        cases hbs
  · intro hlen
    obtain ⟨bs, hbs⟩ := readLayers_ok layers f.floats (le_of_eq hlen.symm)
    refine ⟨bs, ?_⟩
    rw [importWeights, hbs, except_bind_ok]
    have hemp : (f.floats.drop (totalFloatCount layers)).isEmpty = true := by
      rw [List.isEmpty_iff, List.drop_eq_nil_iff]
      omega
    simp only [hemp, if_true]

/-- The width of a box is the difference of its horizontal edges. -/
theorem BBox.rightE_sub_leftE (b : BBox) : b.rightE - b.leftE = b.w := by
  unfold BBox.rightE BBox.leftE
  ring

/-- The height of a box is the difference of its vertical edges. -/
theorem BBox.topE_sub_botE (b : BBox) : b.topE - b.botE = b.h := by
  unfold BBox.topE BBox.botE
  ring

/-- Interval overlap length is nonnegative. -/
theorem interLen_nonneg (l1 r1 l2 r2 : ℚ) : 0 ≤ interLen l1 r1 l2 r2 :=
  le_max_left 0 _

/-- Interval overlap length is at most the first interval's length. -/
theorem interLen_le_left (l1 r1 l2 r2 : ℚ) (h : 0 ≤ r1 - l1) :
    interLen l1 r1 l2 r2 ≤ r1 - l1 := by
  unfold interLen
  have h1 : min r1 r2 ≤ r1 := min_le_left _ _
  have h2 : l1 ≤ max l1 l2 := le_max_left _ _
  exact max_le h (by linarith)

/-- Intersection area is symmetric. -/
theorem interArea_comm (a b : BBox) : interArea a b = interArea b a := by
  unfold interArea interLen
  rw [min_comm a.rightE b.rightE, max_comm a.leftE b.leftE,
    min_comm a.topE b.topE, max_comm a.botE b.botE]

/-- Intersection area is nonnegative. -/
theorem interArea_nonneg (a b : BBox) : 0 ≤ interArea a b :=
  mul_nonneg (interLen_nonneg _ _ _ _) (interLen_nonneg _ _ _ _)

/-- Intersection area is at most the first box's area. -/
theorem interArea_le_left {a : BBox} (b : BBox) (hw : 0 ≤ a.w)
    (hh : 0 ≤ a.h) : interArea a b ≤ a.area := by
  unfold interArea BBox.area
  have h1 : interLen a.leftE a.rightE b.leftE b.rightE ≤ a.w := by
    have hx := interLen_le_left a.leftE a.rightE b.leftE
      b.rightE (by rw [BBox.rightE_sub_leftE]; exact hw)
    rwa [BBox.rightE_sub_leftE] at hx
  have h2 : interLen a.botE a.topE b.botE b.topE ≤ a.h := by
    have hy := interLen_le_left a.botE a.topE b.botE
      b.topE (by rw [BBox.topE_sub_botE]; exact hh)
    rwa [BBox.topE_sub_botE] at hy
  exact mul_le_mul h1 h2 (interLen_nonneg _ _ _ _) hw

/-- Intersection area is at most the union area. -/
theorem interArea_le_union {a b : BBox} (haw : 0 ≤ a.w) (hah : 0 ≤ a.h)
    (hbw : 0 ≤ b.w) (hbh : 0 ≤ b.h) : interArea a b ≤ unionArea a b := by
  unfold unionArea
  have h1 := interArea_le_left b haw hah
  have h2 : interArea a b ≤ b.area := by
    rw [interArea_comm]
    exact interArea_le_left a hbw hbh
  linarith

/-- The self-intersection of a box with nonnegative dimensions is its
area. -/
theorem interArea_self (a : BBox) (hw : 0 ≤ a.w) (hh : 0 ≤ a.h) :
    interArea a a = a.area := by
  unfold interArea interLen BBox.area
  rw [min_self, max_self, min_self, max_self, BBox.rightE_sub_leftE,
    BBox.topE_sub_botE, max_eq_right hw, max_eq_right hh]

/-!  Claim theorems. -/

/-- C1 (counterexample): assigning `0` to `input_size` succeeds and stores
`0`, although `0` is not a positive multiple of 32 — the setter only checks
`size % 32 == 0`, so zero (and negative multiples of 32) are accepted. -/
theorem set_input_size_zero_accepted :
    set_input_size 0 = Except.ok 0 ∧ ¬ (0 < (0 : Int)) := by
  exact ⟨rfl, by decide⟩

/-- C1 (amended): assigning `size` to `input_size` succeeds (storing the
value) exactly when 32 divides `size` — zero and negative multiples
included; any other value raises a `ValueError` and leaves the stored
`input_size` unchanged. -/
theorem set_input_size_spec (old size : Int) :
    (set_input_size size = Except.ok size ↔ (32 : Int) ∣ size) ∧
    (¬ (32 : Int) ∣ size →
      (∃ e, set_input_size size = Except.error e) ∧
        applySet old (set_input_size size) = old) := by
  have hdvd : size % 32 = 0 ↔ (32 : Int) ∣ size :=
    ⟨fun h => Int.dvd_of_emod_eq_zero h, fun h => Int.emod_eq_zero_of_dvd h⟩
  by_cases h : size % 32 = 0
  · refine ⟨⟨fun _ => hdvd.mp h, fun _ => ?_⟩, fun hc => absurd (hdvd.mp h) hc⟩
    simp [set_input_size, h]
  · refine ⟨⟨fun he => ?_, fun hd => absurd (hdvd.mpr hd) h⟩, fun _ => ?_⟩
    · simp [set_input_size, h] at he
    · refine ⟨⟨"ValueError: YOLOv4: Set input_size to multiples of 32", ?_⟩, ?_⟩ <;>
        simp [set_input_size, h, applySet]

/-- C1 (witness for the amended theorem): for `size = 5` the setter raises
and the stored value 608 is unchanged. -/
theorem set_input_size_spec_witness :
    (∃ e, set_input_size 5 = Except.error e) ∧
      applySet (608 : Int) (set_input_size 5) = 608 :=
  (set_input_size_spec 608 5).2 (by decide)

/-- C2 (counterexample): assigning a value of invalid type (neither list,
tuple nor ndarray) to `strides` raises nothing and leaves the stored value
unchanged — the assignment is silently ignored, not rejected with a fatal
configuration error. -/
theorem set_strides_silently_ignores :
    set_strides ⟨DType.int64, [3], [8, 16, 32]⟩ PyVal.otherVal =
      Except.ok ⟨DType.int64, [3], [8, 16, 32]⟩ := by
  rfl

/-- C2 (amended): the `strides` and `xyscales` setters store any list,
tuple or array without shape validation and silently ignore values of any
other type (no error, previous value kept); the `anchors` setter raises a
`ValueError` only for element counts that do not fit the `(scales, 3, 2)`
reshape, and silently re-stores the previous anchors (cast to `float32`)
when given a value of invalid type. -/
theorem config_setter_spec (old : NDArray) (tiny : Bool) :
    set_strides old PyVal.otherVal = Except.ok old ∧
    set_xyscales old PyVal.otherVal = Except.ok old ∧
    (∀ xs : List ℚ, set_strides old (PyVal.pylist xs) =
      Except.ok ⟨inferDType xs, [xs.length], xs⟩) ∧
    (∀ xs : List ℚ, xs.length ≠ (anchorShape tiny).prod →
      ∃ e, set_anchors tiny (some old) (PyVal.pylist xs) = Except.error e) ∧
    (old.data.length = (anchorShape tiny).prod →
      set_anchors tiny (some old) PyVal.otherVal =
        Except.ok ⟨DType.float32, anchorShape tiny, old.data⟩) := by
  refine ⟨rfl, rfl, fun xs => rfl, fun xs hxs => ?_, fun hlen => ?_⟩
  · refine ⟨"ValueError: cannot reshape array", ?_⟩
    simp [set_anchors, npOfVal, NDArray.astype, NDArray.reshape, hxs]
  · simp [set_anchors, npOfVal, NDArray.astype, NDArray.reshape, hlen]

/-- C2 (witness for the amended theorem): on a stored 12-element anchors
array of the tiny variant, an invalid-typed assignment to `anchors` is
silently ignored, and an invalid-typed assignment to `strides` keeps the
stored strides. -/
theorem config_setter_spec_witness :
    set_strides ⟨DType.float32, [2], [16, 32]⟩ PyVal.otherVal =
      Except.ok ⟨DType.float32, [2], [16, 32]⟩ ∧
    set_anchors true
        (some ⟨DType.float32, [2, 3, 2],
          [23, 27, 37, 58, 81, 82, 81, 82, 135, 169, 344, 319]⟩)
        PyVal.otherVal =
      Except.ok
        ⟨DType.float32, anchorShape true,
          [23, 27, 37, 58, 81, 82, 81, 82, 135, 169, 344, 319]⟩ :=
  ⟨(config_setter_spec ⟨DType.float32, [2], [16, 32]⟩ true).1,
    (config_setter_spec
        ⟨DType.float32, [2, 3, 2],
          [23, 27, 37, 58, 81, 82, 81, 82, 135, 169, 344, 319]⟩ true).2.2.2.2
      (by decide)⟩

/-- C4: every successful assignment to `anchors` — from a flat list, a
nested list, a tuple or an ndarray — stores a `float32` array of shape
`(2, 3, 2)` for the tiny variant and `(3, 3, 2)` for the full variant,
i.e. exactly 3 (width, height) anchor pairs per scale. -/
theorem set_anchors_invariant (tiny : Bool) (old : Option NDArray)
    (v : PyVal) (a : NDArray) (h : set_anchors tiny old v = Except.ok a) :
    a.shape = (if tiny then [2, 3, 2] else [3, 3, 2]) ∧
    a.dtype = DType.float32 ∧
    a.data.length = (if tiny then 2 else 3) * 3 * 2 := by
  obtain ⟨base, hb⟩ := set_anchors_ok h
  obtain ⟨hsh, hdt, hdata, hlen⟩ := reshape_ok hb
  refine ⟨by rw [hsh]; cases tiny <;> rfl, by rw [hdt]; rfl, ?_⟩
  rw [hdata, hlen]
  exact anchorShape_prod tiny

/-- C4 (witness): assigning the flat 12-element default anchor list of the
tiny variant stores a `(2, 3, 2)` float32 array. -/
theorem set_anchors_invariant_witness :
    (⟨DType.float32, [2, 3, 2],
        [23, 27, 37, 58, 81, 82, 81, 82, 135, 169, 344, 319]⟩ : NDArray).shape =
      (if true then [2, 3, 2] else [3, 3, 2]) ∧
    (⟨DType.float32, [2, 3, 2],
        [23, 27, 37, 58, 81, 82, 81, 82, 135, 169, 344, 319]⟩ : NDArray).dtype =
      DType.float32 ∧
    (⟨DType.float32, [2, 3, 2],
        [23, 27, 37, 58, 81, 82, 81, 82, 135, 169, 344, 319]⟩ :
          NDArray).data.length = (if true then 2 else 3) * 3 * 2 :=
  set_anchors_invariant true none
    (PyVal.pylist [23, 27, 37, 58, 81, 82, 81, 82, 135, 169, 344, 319])
    ⟨DType.float32, [2, 3, 2],
      [23, 27, 37, 58, 81, 82, 81, 82, 135, 169, 344, 319]⟩ rfl

/-- C6: the default configuration gives the full model 3 scales with
strides `[8, 16, 32]`, xyscales `[1.2, 1.1, 1.05]` and a `(3, 3, 2)` anchor
array, and the tiny model 2 scales with strides `[16, 32]`, xyscales
`[1.05, 1.05]` and a `(2, 3, 2)` anchor array. -/
theorem initConfig_defaults :
    ((initConfig false false).toOption.map fun c =>
        (c.strides.data, c.xyscales.data, c.anchors.shape)) =
      some ([8, 16, 32], [mkRat 12 10, mkRat 11 10, mkRat 105 100], [3, 3, 2]) ∧
    ((initConfig true false).toOption.map fun c =>
        (c.strides.data, c.xyscales.data, c.anchors.shape)) =
      some ([16, 32], [mkRat 105 100, mkRat 105 100], [2, 3, 2]) := by
  exact ⟨by decide, by decide⟩

/-- C10: the `classes` setter resolves a string through the classes-file
reader, stores a dict as-is, and raises a `TypeError` on any other type,
leaving the previously stored class-name mapping unchanged. -/
theorem set_classes_spec (readNames : String → List (Nat × String))
    (old : Option (List (Nat × String))) :
    (∀ p, set_classes readNames (ClassesVal.strv p) =
      Except.ok (readNames p)) ∧
    (∀ d, set_classes readNames (ClassesVal.dictv d) = Except.ok d) ∧
    set_classes readNames ClassesVal.otherv =
      Except.error "TypeError: YOLOv4: Set classes path or dictionary" ∧
    applySet old ((set_classes readNames ClassesVal.otherv).map some) = old := by
  exact ⟨fun p => rfl, fun d => rfl, rfl, rfl⟩

/-- C3: for a nonzero subdivision count and a configured class set, the
normalization batch size handed to the loss aggregator by `compile` and the
per-step batch size handed to the dataset loader by `load_dataset` are both
the configured batch size floor-divided by the subdivision count. -/
theorem batch_normalization_spec (cfg : Config) (iouType dpath dsty : String)
    (training : Bool) (cs : List (Nat × String)) (hs : cfg.subdivision ≠ 0)
    (hc : cfg.classes = some cs) :
    compileLossArgs cfg iouType =
      Except.ok ⟨Int.fdiv cfg.batch_size cfg.subdivision, iouType⟩ ∧
    loadDatasetArgs cfg dpath dsty training =
      Except.ok
        { anchors := cfg.anchors
          batch_size := Int.fdiv cfg.batch_size cfg.subdivision
          dataset_path := dpath
          dataset_type := dsty
          data_augmentation := training
          input_size := cfg.input_size
          num_classes := cs.length
          strides := cfg.strides
          xyscales := cfg.xyscales } := by
  constructor
  · simp [compileLossArgs, pyFloorDiv, hs, except_bind_ok]
  · simp [loadDatasetArgs, pyFloorDiv, hs, hc, except_bind_ok]

/-- C3 (witness): with the default batch size 32 and subdivision 16, both
`compile` and `load_dataset` hand over a per-step batch size of 2. -/
theorem batch_normalization_spec_witness :
    compileLossArgs
        ⟨false, false, ⟨DType.int64, [0], []⟩, 32, 16, some [(0, "person")],
          false, 608, ⟨DType.int64, [3], [8, 16, 32]⟩,
          ⟨DType.int64, [3], [8, 16, 32]⟩⟩ "ciou" =
      Except.ok ⟨Int.fdiv 32 16, "ciou"⟩ ∧
    loadDatasetArgs
        ⟨false, false, ⟨DType.int64, [0], []⟩, 32, 16, some [(0, "person")],
          false, 608, ⟨DType.int64, [3], [8, 16, 32]⟩,
          ⟨DType.int64, [3], [8, 16, 32]⟩⟩ "d" "converted_coco" true =
      Except.ok
        { anchors := ⟨DType.int64, [0], []⟩
          batch_size := Int.fdiv 32 16
          dataset_path := "d"
          dataset_type := "converted_coco"
          data_augmentation := true
          input_size := 608
          num_classes := [(0, "person")].length
          strides := ⟨DType.int64, [3], [8, 16, 32]⟩
          xyscales := ⟨DType.int64, [3], [8, 16, 32]⟩ } :=
  batch_normalization_spec
    ⟨false, false, ⟨DType.int64, [0], []⟩, 32, 16, some [(0, "person")],
      false, 608, ⟨DType.int64, [3], [8, 16, 32]⟩,
      ⟨DType.int64, [3], [8, 16, 32]⟩⟩ "ciou" "d" "converted_coco" true
    [(0, "person")] (by decide) rfl

/-- C5: for well-formed per-scale outputs, `predict` hands the decoder one
single candidate list that is the concatenation, in scale order, of each
scale's output reshaped to `grid_size * grid_size * 3` candidate rows, and
post-processing (decode, then letterbox undo to the original frame) runs on
that concatenated list. -/
theorem predict_concatenates_scales {α β γ : Type}
    (decode : List α → List β) (fitToOrig : List β → γ → List β)
    (outs : List (ScaleOut α)) (frameShape : γ) (h : ∀ o ∈ outs, o.WF) :
    predictBoxes decode fitToOrig outs frameShape =
      fitToOrig (decode ((outs.map ScaleOut.reshapeCand).flatten)) frameShape ∧
    outs.map (fun o => o.reshapeCand.length) =
      outs.map (fun o => o.gridSize * o.gridSize * 3) := by
  constructor
  · unfold predictBoxes
    rw [predictConcat_eq]
  · exact List.map_congr_left fun o ho => reshapeCand_length o (h o ho)

/-- C5 (witness): a single scale with grid size 1 and three anchor slots. -/
theorem predict_concatenates_scales_witness :
    predictBoxes id (fun l _ => l) [ScaleOut.mk [[[0, 1, 2]]]] 0 =
      (fun (l : List Nat) (_ : Nat) => l)
        (id (([ScaleOut.mk [[[0, 1, 2]]]].map ScaleOut.reshapeCand).flatten))
        0 ∧
    [ScaleOut.mk [[[0, 1, 2]]]].map (fun o => o.reshapeCand.length) =
      [ScaleOut.mk [[[0, 1, 2]]]].map
        (fun o => o.gridSize * o.gridSize * 3) :=
  predict_concatenates_scales id (fun l _ => l) [ScaleOut.mk [[[0, 1, 2]]]] 0
    (by
      intro o ho
      simp only [List.mem_singleton] at ho
      subst ho
      unfold ScaleOut.WF
      decide)

/-- C7 (counterexample): with the union area floored at an epsilon of
1e-9, the non-degenerate box with width and height 1e-5 has IoU 1/10 with
itself, not 1 — the epsilon floor dominates its union area, so
`IoU(A,A) = 1` fails for non-degenerate boxes smaller than the floor. -/
theorem iou_self_counterexample :
    (0 : ℚ) < 1 / 100000 ∧
    iou (1 / 1000000000) ⟨0, 0, 1 / 100000, 1 / 100000⟩
        ⟨0, 0, 1 / 100000, 1 / 100000⟩ = 1 / 10 ∧
    iou (1 / 1000000000) ⟨0, 0, 1 / 100000, 1 / 100000⟩
        ⟨0, 0, 1 / 100000, 1 / 100000⟩ ≠ 1 := by
  have hval : iou (1 / 1000000000) ⟨0, 0, 1 / 100000, 1 / 100000⟩
      ⟨0, 0, 1 / 100000, 1 / 100000⟩ = 1 / 10 := by
    unfold iou unionArea
    rw [interArea_self _ (by norm_num) (by norm_num)]
    show BBox.area _ / max (BBox.area _ + BBox.area _ - BBox.area _) _ =
      1 / 10
    norm_num [BBox.area]
  exact ⟨by norm_num, hval, by rw [hval]; norm_num⟩

/-- C7 (amended): for boxes with nonnegative dimensions and a positive
epsilon floor, IoU lies in [0, 1], is symmetric, yields 0 on degenerate
boxes with no division by zero, and `IoU(A,A) = 1` holds provided the
box's area is at least the epsilon floor (for smaller boxes the floored
union strictly lowers the ratio). -/
theorem iou_metric_spec (eps : ℚ) (a b : BBox) (heps : 0 < eps)
    (haw : 0 ≤ a.w) (hah : 0 ≤ a.h) (hbw : 0 ≤ b.w) (hbh : 0 ≤ b.h) :
    0 ≤ iou eps a b ∧ iou eps a b ≤ 1 ∧ iou eps a b = iou eps b a ∧
    (eps ≤ a.area → iou eps a a = 1) ∧
    (a.w = 0 ∨ a.h = 0 → iou eps a b = 0) := by
  have hden : (0 : ℚ) < max (unionArea a b) eps :=
    lt_of_lt_of_le heps (le_max_right _ _)
  refine ⟨?_, ?_, ?_, ?_, ?_⟩
  · exact div_nonneg (interArea_nonneg a b) (le_of_lt hden)
  · rw [iou, div_le_one hden]
    exact le_trans (interArea_le_union haw hah hbw hbh) (le_max_left _ _)
  · unfold iou unionArea
    rw [interArea_comm, add_comm a.area b.area]
  · intro harea
    unfold iou unionArea
    rw [interArea_self a haw hah,
      show a.area + a.area - a.area = a.area by ring, max_eq_left harea]
    exact div_self (ne_of_gt (lt_of_lt_of_le heps harea))
  · intro hdeg
    have hzero : interArea a b = 0 := by
      unfold interArea
      cases hdeg with
      | inl hw =>
          have hle : interLen a.leftE a.rightE b.leftE b.rightE ≤ 0 := by
            have hx := interLen_le_left a.leftE a.rightE
              b.leftE b.rightE (by rw [BBox.rightE_sub_leftE, hw])
            rwa [BBox.rightE_sub_leftE, hw] at hx
          rw [le_antisymm hle (interLen_nonneg _ _ _ _), zero_mul]
      | inr hh =>
          have hle : interLen a.botE a.topE b.botE b.topE ≤ 0 := by
            have hy := interLen_le_left a.botE a.topE
              b.botE b.topE (by rw [BBox.topE_sub_botE, hh])
            rwa [BBox.topE_sub_botE, hh] at hy
          rw [le_antisymm hle (interLen_nonneg _ _ _ _), mul_zero]
    rw [iou, hzero, zero_div]

/-- C7 (witness for the amended theorem): two overlapping 2x2 boxes and the
self-IoU of a box whose area exceeds the floor. -/
theorem iou_metric_spec_witness :
    0 ≤ iou 1 ⟨0, 0, 2, 2⟩ ⟨1, 0, 2, 2⟩ ∧
    iou 1 ⟨0, 0, 2, 2⟩ ⟨1, 0, 2, 2⟩ ≤ 1 ∧
    iou 1 ⟨0, 0, 2, 2⟩ ⟨1, 0, 2, 2⟩ = iou 1 ⟨1, 0, 2, 2⟩ ⟨0, 0, 2, 2⟩ ∧
    iou 1 ⟨0, 0, 2, 2⟩ ⟨0, 0, 2, 2⟩ = 1 :=
  have h := iou_metric_spec 1 ⟨0, 0, 2, 2⟩ ⟨1, 0, 2, 2⟩ (by norm_num)
    (by norm_num) (by norm_num) (by norm_num) (by norm_num)
  ⟨h.1, h.2.1, h.2.2.1, h.2.2.2.1 (by norm_num [BBox.area])⟩

/-- C8: the weight import succeeds exactly when the file holds the total
expected float count — fewer floats or unconsumed leftovers are a
`FormatError`; the import depends only on the file's float words, so two
imports of the same well-formed file are bit-identical; a failing import
leaves the previous model state installed; truncating a well-formed
nonempty file makes the import fail. -/
theorem weight_import_format_check (layers : List ConvLayer) (f : WFile)
    (st : WeightState) :
    ((∃ bs, importWeights layers f = Except.ok bs) ↔
      f.floats.length = totalFloatCount layers) ∧
    (∀ g : WFile, g.floats = f.floats →
      importWeights layers g = importWeights layers f) ∧
    (∀ e, (loadWeightsYolo layers st f).2 = some e →
      (loadWeightsYolo layers st f).1 = st) ∧
    (f.floats.length = totalFloatCount layers → f.floats ≠ [] →
      ∃ e, importWeights layers { f with floats := f.floats.dropLast } =
        Except.error e) := by
  refine ⟨importWeights_ok_iff layers f, fun g hg => ?_, fun e he => ?_,
    fun hlen hne => ?_⟩
  · unfold importWeights
    rw [hg]
  · unfold loadWeightsYolo at he ⊢
    cases him : importWeights layers f with
    | ok bs =>
        simp only [him] at he
        cases he
    | error e2 =>
        simp only [him]
  · have hlt : (f.floats.dropLast).length < totalFloatCount layers := by
      rw [List.length_dropLast]
      have hpos : 0 < f.floats.length := List.length_pos.mpr hne
      omega
    refine ⟨"FormatError: file shorter than expected float count", ?_⟩
    unfold importWeights
    rw [readLayers_err layers _ hlt]
    rfl

/-- C8 (witness): a single batch-normalized 1x1x1x1 layer expects 5 floats;
a 5-float file imports successfully and its 4-float truncation fails. -/
theorem weight_import_format_check_witness :
    (∃ bs, importWeights ([⟨true, 1, 1, 1, 1⟩] : List ConvLayer)
        ⟨(0, 2, 5), 0, [10, 20, 30, 40, 50]⟩ = Except.ok bs) ∧
    (∃ e, importWeights ([⟨true, 1, 1, 1, 1⟩] : List ConvLayer)
        ⟨(0, 2, 5), 0, ([10, 20, 30, 40, 50] : List Nat).dropLast⟩ =
      Except.error e) :=
  ⟨(weight_import_format_check ([⟨true, 1, 1, 1, 1⟩] : List ConvLayer)
      ⟨(0, 2, 5), 0, [10, 20, 30, 40, 50]⟩ ⟨none⟩).1.mpr (by decide),
    (weight_import_format_check ([⟨true, 1, 1, 1, 1⟩] : List ConvLayer)
      ⟨(0, 2, 5), 0, [10, 20, 30, 40, 50]⟩ ⟨none⟩).2.2.2 (by decide)
      (by decide)⟩

/-- C9: after any sequence of `make_model` / `load_weights` calls from a
fresh object, `_has_weights` is `True` exactly when a successful
`load_weights` call comes after the last `make_model` call; `make_model`
resets the flag and clears the global backend session before constructing
the fresh model, and a non-raising `load_weights` sets the flag for both
the `yolo` and `tf` formats. -/
theorem has_weights_invariant (ops : List MOp) (s : MState) :
    (runOps ops).has_weights = flagSpecRev ops.reverse ∧
    initMState.has_weights = false ∧
    (stepOp s MOp.mkModel).has_weights = false ∧
    (stepOp s MOp.mkModel).model_built = true ∧
    makeModelEffects =
      [Effect.setHasWeights false, Effect.clearSession,
        Effect.constructModel] ∧
    (stepOp s (MOp.loadW WFormat.yolo true)).has_weights = true ∧
    (stepOp s (MOp.loadW WFormat.tfFmt true)).has_weights = true ∧
    loadWeightsEffects WFormat.yolo =
      [Effect.loadDarknetWeights, Effect.setHasWeights true] ∧
    loadWeightsEffects WFormat.tfFmt =
      [Effect.loadKerasWeights, Effect.setHasWeights true] :=
  ⟨runOps_flag ops, rfl, rfl, rfl, rfl, rfl, rfl, rfl, rfl⟩

end Yolov4
